import Mathlib

/-!
Verification of the Related Website Sets checker (`RwsCheck.py`) against its
natural-language specification.  The Python source is shallowly embedded:
each check method becomes a Lean function threading an explicit
`CheckState` (the `error_list` / `warning_texts` pair of the `RwsCheck`
object), network calls become oracle function parameters, and Python lists,
dicts and strings become Lean lists, association lists and strings.
-/

/-! ## String utilities mirroring the Python string operations used -/

/-- Auxiliary for `splitDots`: splits a list of characters at every `'.'`,
mirroring Python `str.split(".")` (so `"" ↦ [""]`, `"a..b" ↦ ["a","","b"]`). -/
def splitDotsList : List Char → List (List Char)
  | [] => [[]]
  | c :: cs =>
    match splitDotsList cs with
    | [] => [[]]
    | h :: t => if c = '.' then [] :: h :: t else (c :: h) :: t

/-- Python `site.split(".")`. -/
def splitDots (s : String) : List String :=
  (splitDotsList s.data).map String.mk

/-- Joins strings with `"."` between them (inverse of `splitDots` on clean input). -/
def joinDots : List String → String
  | [] => ""
  | [x] => x
  | x :: y :: xs => x ++ "." ++ joinDots (y :: xs)

/-- Joins strings with `", "` between them, as Python does when rendering a
list or set of elements inside an f-string. -/
def joinCommaSp : List String → String
  | [] => ""
  | [x] => x
  | x :: y :: xs => x ++ ", " ++ joinCommaSp (y :: xs)

/-- Decides whether `needle` occurs as a contiguous sublist of `hay`;
used to mirror the Python substring test `needle in hay`. -/
def containsSub (needle : List Char) : List Char → Bool
  | [] => needle.isEmpty
  | c :: cs => needle.isPrefixOf (c :: cs) || containsSub needle cs

/-- Python `needle in hay` on strings (substring containment). -/
def strContains (needle hay : String) : Bool :=
  containsSub needle.data hay.data

/-- Python `repr` of a string as it appears inside an f-string rendering of a
list or set: the text wrapped in single quotes. -/
def pyStr (s : String) : String := "\x27" ++ s ++ "\x27"

/-- Python f-string rendering of a list of strings, e.g. `[` `\x27a\x27, \x27b\x27` `]`. -/
def pyListRepr (l : List String) : String :=
  "[" ++ joinCommaSp (l.map pyStr) ++ "]"

/-- Python f-string rendering of a set of strings.  CPython's iteration order
over a set is unspecified; we render elements in the order our embedding
collected them, which is irrelevant to every claim (the claims only count
diagnostics or test membership). -/
def pySetRepr (l : List String) : String :=
  "\x7b" ++ joinCommaSp (l.map pyStr) ++ "\x7d"

/-- Lexicographic (code-point) comparison on character lists, matching how
Python `sorted` orders strings. -/
def charListLe : List Char → List Char → Bool
  | [], _ => true
  | _ :: _, [] => false
  | a :: as, b :: bs => if a = b then charListLe as bs else decide (a.toNat < b.toNat)

/-- Boolean string order used by `sortStrings`. -/
def strLeB (a b : String) : Bool := charListLe a.data b.data

/-- Inserts a string into an already sorted list. -/
def insSorted (x : String) : List String → List String
  | [] => [x]
  | y :: ys => if strLeB x y then x :: y :: ys else y :: insSorted x ys

/-- Insertion sort on strings, mirroring Python `sorted` on a set of strings
(stability is irrelevant because the input is duplicate-free). -/
def sortStrings (l : List String) : List String := l.foldr insSorted []

/-- Python `site.startswith("https://")`, the body of `RwsCheck.url_is_https`. -/
def url_is_https (site : String) : Bool :=
  "https://".data.isPrefixOf site.data

/-- Python `site.removeprefix("https://")` as used in `is_eTLD_Plus1`. -/
def stripHttps (site : String) : String :=
  if url_is_https site then String.mk (site.data.drop 8) else site

/-- First `'.'`-separated segment of a domain, Python `site.split(".")[0]`. -/
def firstLabel (site : String) : String := (splitDots site).headD ""

/-- Last `'.'`-separated segment of a domain, Python `site.split(".")[-1]`. -/
def lastLabel (site : String) : String := (splitDots site).getLastD ""

/-! ## Data model -/

/-- Constant `WELL_KNOWN` from `RwsCheck.py`. -/
def WELL_KNOWN : String := "/.well-known/related-website-set.json"

/-- Constant `ASSOCIATED_LIMIT` from `RwsCheck.py`. -/
def ASSOCIATED_LIMIT : Nat := 5

/-- One raw record of the input document's `sets` list.  The schema guarantees
`primary` is present; the other fields are optional (`None` when absent).
A `rationaleBySite` mapping is an association list site ↦ rationale text. -/
structure RawRecord where
  primary : String
  ccTLDs : Option (List (String × List String))
  associatedSites : Option (List String)
  serviceSites : Option (List String)
  rationaleBySite : Option (List (String × String))
deriving DecidableEq

/-- The Set Model of one RWS entry.  `ccTLDs` is an insertion-ordered map from
an aliased site to its list of aliases, as in the Python `RwsSet` class. -/
structure RwsSet where
  ccTLDs : List (String × List String)
  primary : Option String
  associated_sites : List String
  service_sites : List String
deriving DecidableEq

/-- Modelled from the spec: the constructor of the Set Model (class `RwsSet`
in `RwsSet.py`, which is not under `src/`).  Per the spec's data model the
optional raw fields default to an empty mapping / empty ordered sequence. -/
def RwsSet.make (ccTLDs : Option (List (String × List String))) (primary : Option String)
    (associated_sites : Option (List String)) (service_sites : Option (List String)) : RwsSet :=
  ⟨ccTLDs.getD [], primary, associated_sites.getD [], service_sites.getD []⟩

/-- Modelled from the spec: `RwsSet.includes(site, primaryOnly)` from
`RwsSet.py` (not under `src/`): "a Set offers an includes(domain, primaryOnly)
query over its own primary/associated/service membership"; with the flag
false the query covers all three member kinds. -/
def RwsSet.includes (rws : RwsSet) (site : String) (primary_only : Bool) : Bool :=
  rws.primary == some site ||
    (!primary_only && (rws.associated_sites.contains site || rws.service_sites.contains site))

/-- The diagnostics sink of an `RwsCheck` object: its `error_list` and
`warning_texts` attributes, both initialised to `[]` in `__init__`. -/
structure CheckState where
  error_list : List String
  warning_texts : List String
deriving DecidableEq

/-- A JSON body fetched from a `/.well-known/related-website-set.json` URL,
with each field `None` when the key is absent. -/
structure ManifestJson where
  ccTLDs : Option (List (String × List String))
  primary : Option String
  associatedSites : Option (List String)
  serviceSites : Option (List String)

/-- The part of a `requests.get` response the checker inspects: final status
code and final URL. -/
structure HttpResp where
  status_code : Nat
  url : String

/-- The part of a redirect-disabled `requests.get` response `find_robots_tag`
inspects: the `X-Robots-Tag` header, `none` when absent. -/
structure RobotsResp where
  xRobotsTag : Option String

/-- Python `None` rendered inside an f-string, versus a plain string. -/
def optStrRepr : Option String → String
  | none => "None"
  | some s => s

/-! ## Set Loader (`RwsCheck.load_sets`) -/

/-- The record-to-Set conversion performed by `load_sets` on insertion. -/
def mkRwsSet (r : RawRecord) : RwsSet :=
  RwsSet.make r.ccTLDs (some r.primary) r.associatedSites r.serviceSites

/-- The duplicate-primary error text of `load_sets`. -/
def dupPrimaryMsg (primary : String) : String :=
  primary ++ " is already a primary of another site"

/-- The loop of `load_sets`: folds the raw records into the `check_sets`
association list (keyed by primary, first occurrence wins) and collects the
`load_sets_errors` list in record order. -/
def loadSetsAux : List RawRecord → List (String × RwsSet) → List (String × RwsSet) × List String
  | [], check_sets => (check_sets, [])
  | rwset :: rest, check_sets =>
    if (check_sets.map Prod.fst).contains rwset.primary then
      ((loadSetsAux rest check_sets).1, dupPrimaryMsg rwset.primary :: (loadSetsAux rest check_sets).2)
    else
      loadSetsAux rest (check_sets ++ [(rwset.primary, mkRwsSet rwset)])

/-- `RwsCheck.load_sets`: returns the `check_sets` map and extends
`error_list` with the collected duplicate-primary errors. -/
def load_sets (rws_sites : List RawRecord) (s : CheckState) : List (String × RwsSet) × CheckState :=
  ((loadSetsAux rws_sites []).1,
   { s with error_list := s.error_list ++ (loadSetsAux rws_sites []).2 })

/-! ## Rationale completeness (`RwsCheck.has_all_rationales`) -/

/-- The per-site missing-rationale error text. -/
def noRationaleMsg (site : String) : String :=
  "There is no provided rationale for " ++ site

/-- The missing-`rationaleBySite` error text. -/
def rationaleRequiredMsg : String :=
  "A rationaleBySite field is required for this set, but none is provided. "

/-- One iteration of the `has_all_rationales` loop.  Records whose primary is
not a key of `check_sets` are skipped (`continue`).  `sites` is the
concatenation `associatedSites + serviceSites` with absent fields defaulting
to `[]`, so the Python guard `sites != None` of the second `if` is always
true and the missing-mapping error fires exactly when `rationaleBySite` is
absent. -/
def rationaleRecordErrors (check_sets : List (String × RwsSet)) (rwset : RawRecord) : List String :=
  if ¬ (check_sets.map Prod.fst).contains rwset.primary then []
  else
    match rwset.rationaleBySite with
    | some rationales =>
      if rwset.associatedSites.getD [] ++ rwset.serviceSites.getD [] ≠ [] then
        ((rwset.associatedSites.getD [] ++ rwset.serviceSites.getD []).filter
          (fun site => ¬ (rationales.map Prod.fst).contains site)).map noRationaleMsg
      else []
    | none => [rationaleRequiredMsg]

/-- `RwsCheck.has_all_rationales`, iterating the raw records. -/
def has_all_rationales (rws_sites : List RawRecord) (check_sets : List (String × RwsSet))
    (s : CheckState) : CheckState :=
  { s with error_list := s.error_list ++ rws_sites.flatMap (rationaleRecordErrors check_sets) }

/-! ## Global exclusivity (`RwsCheck.check_exclusivity`) -/

/-- Error text for a primary already claimed. -/
def exclPrimaryMsg (primary : String) : String :=
  "This primary is already registered in another related website set: " ++ primary

/-- Error text for overlapping associated sites (rendering the overlap set). -/
def exclAssociatedMsg (overlap : List String) : String :=
  "These associated sites are already registered in another related website set: "
    ++ pySetRepr overlap

/-- Error text for overlapping service sites. -/
def exclServiceMsg (overlap : List String) : String :=
  "These service sites are already registered in another related website set: "
    ++ pySetRepr overlap

/-- Error text for overlapping ccTLD alias sites. -/
def exclAliasMsg (overlap : List String) : String :=
  "These ccTLD sites are already registered in another related website set: "
    ++ pySetRepr overlap

/-- Python `site_list.update(primary)`: `set.update` iterates its argument, so
updating with a *string* adds the string's individual characters (as
one-character strings), not the string itself. -/
def strChars (s : String) : List String :=
  s.data.map (fun c => String.mk [c])

/-- Processing of one `check_sets` item by `check_exclusivity`: primary, then
associated sites, then service sites, then every ccTLD alias list; each
category's domains join `site_list` only when that category had no overlap.
Returns the updated `site_list` and the errors this item appended. -/
def exclStep (site_list0 : List String) (primary : String) (rws : RwsSet) :
    List String × List String :=
  let afterPrimary :=
    if site_list0.contains primary then (site_list0, [exclPrimaryMsg primary])
    else (site_list0 ++ strChars primary, [])
  let associated_overlap := (rws.associated_sites.filter afterPrimary.1.contains).eraseDups
  let afterAssoc :=
    if associated_overlap ≠ [] then (afterPrimary.1, afterPrimary.2 ++ [exclAssociatedMsg associated_overlap])
    else (afterPrimary.1 ++ rws.associated_sites, afterPrimary.2)
  let service_overlap := (rws.service_sites.filter afterAssoc.1.contains).eraseDups
  let afterService :=
    if service_overlap ≠ [] then (afterAssoc.1, afterAssoc.2 ++ [exclServiceMsg service_overlap])
    else (afterAssoc.1 ++ rws.service_sites, afterAssoc.2)
  rws.ccTLDs.foldl (fun acc entry =>
    let alias_overlap := (entry.2.filter acc.1.contains).eraseDups
    if alias_overlap ≠ [] then (acc.1, acc.2 ++ [exclAliasMsg alias_overlap])
    else (acc.1 ++ entry.2, acc.2)) afterService

/-- The loop of `check_exclusivity` over `check_sets.items()`, carrying the
running `site_list` and accumulating errors in order. -/
def exclAux : List (String × RwsSet) → List String → List String × List String
  | [], site_list => (site_list, [])
  | e :: rest, site_list =>
    ((exclAux rest (exclStep site_list e.1 e.2).1).1,
     (exclStep site_list e.1 e.2).2 ++ (exclAux rest (exclStep site_list e.1 e.2).1).2)

/-- `RwsCheck.check_exclusivity`. -/
def check_exclusivity (check_sets : List (String × RwsSet)) (s : CheckState) : CheckState :=
  { s with error_list := s.error_list ++ (exclAux check_sets []).2 }

/-! ## Associated-site count (`RwsCheck.check_associated_count`) -/

/-- The associated-count warning text (`ASSOCIATED_LIMIT` interpolated). -/
def associatedCountMsg (primary : String) : String :=
  "Warning: the set for " ++ primary ++ " contains more than "
    ++ toString ASSOCIATED_LIMIT ++ " associated sites."

/-- `RwsCheck.check_associated_count`: appends one warning per set whose
associated-site count exceeds `ASSOCIATED_LIMIT`. -/
def check_associated_count (check_sets : List (String × RwsSet)) (s : CheckState) : CheckState :=
  { s with warning_texts := s.warning_texts ++ check_sets.flatMap (fun e =>
      if ASSOCIATED_LIMIT < e.2.associated_sites.length then [associatedCountMsg e.1] else []) }

/-! ## HTTPS scheme enforcement (`RwsCheck.find_non_https_urls`) -/

/-- The errors `find_non_https_urls` appends for one `check_sets` item:
primary, then ccTLD keys and their aliases, then associated, then service
sites. -/
def nonHttpsSetErrors (primary : String) (curr_set : RwsSet) : List String :=
  (if ¬ url_is_https primary then
    ["The provided primary site does not begin with https:// " ++ primary] else []) ++
  curr_set.ccTLDs.flatMap (fun entry =>
    (if ¬ url_is_https entry.1 then
      ["The provided aliased site does not begin with https:// " ++ entry.1] else []) ++
    entry.2.flatMap (fun al =>
      if ¬ url_is_https al then
        ["The provided alias site does not begin with https:// " ++ al] else [])) ++
  curr_set.associated_sites.flatMap (fun associated_site =>
    if ¬ url_is_https associated_site then
      ["The provided associated site does not begin with https:// " ++ associated_site] else []) ++
  curr_set.service_sites.flatMap (fun service_site =>
    if ¬ url_is_https service_site then
      ["The provided service site does not begin with https:// " ++ service_site] else [])

/-- `RwsCheck.find_non_https_urls`. -/
def find_non_https_urls (check_sets : List (String × RwsSet)) (s : CheckState) : CheckState :=
  { s with error_list := s.error_list ++ check_sets.flatMap (fun e => nonHttpsSetErrors e.1 e.2) }

/-! ## eTLD+1 classification (`RwsCheck.is_eTLD_Plus1`, `find_invalid_eTLD_Plus1`) -/

/-- The public-suffix oracle (the `publicsuffix2.PublicSuffixList` collaborator,
external to this repository): `get_sld site strict=True` returns the
second-level-domain-or-higher form, `get_tld site strict=True` the bare
suffix, each `none` when the suffix is not recognized. -/
structure SuffixOracle where
  get_sld : String → Option String
  get_tld : String → Option String

/-- `RwsCheck.is_eTLD_Plus1`: strips a leading `https://`, then requires the
site to equal its own `get_sld` form and not equal its own `get_tld` form
(Python `None == site` is false, matching the `Option` comparison). -/
def is_eTLD_Plus1 (etlds : SuffixOracle) (site : String) : Bool :=
  (etlds.get_sld (stripHttps site) == some (stripHttps site)) &&
    !(etlds.get_tld (stripHttps site) == some (stripHttps site))

/-- Modelled from the spec: a concrete suffix oracle whose public-suffix list
is exactly `{"com"}` (the spec's collaborator contract: strict
"registrable-domain-or-self" and "bare-suffix-or-self" queries that fail on
an unrecognized suffix). -/
def comOracle : SuffixOracle :=
  ⟨fun s =>
      if (splitDots s).getLast? == some "com" then
        some (joinDots ((splitDots s).drop ((splitDots s).length - 2)))
      else none,
   fun s => if (splitDots s).getLast? == some "com" then some "com" else none⟩

/-- The errors `find_invalid_eTLD_Plus1` appends for one `check_sets` item
(same traversal as the https check). -/
def invalidEtldSetErrors (etlds : SuffixOracle) (primary : String) (curr_set : RwsSet) : List String :=
  (if ¬ is_eTLD_Plus1 etlds primary then
    ["The provided primary site is not an eTLD+1: " ++ primary] else []) ++
  curr_set.ccTLDs.flatMap (fun entry =>
    (if ¬ is_eTLD_Plus1 etlds entry.1 then
      ["The provided aliased site is not an eTLD+1: " ++ entry.1] else []) ++
    entry.2.flatMap (fun al =>
      if ¬ is_eTLD_Plus1 etlds al then
        ["The provided alias site is not an eTLD+1: " ++ al] else [])) ++
  curr_set.associated_sites.flatMap (fun associated_site =>
    if ¬ is_eTLD_Plus1 etlds associated_site then
      ["The provided associated site is not an eTLD+1: " ++ associated_site] else []) ++
  curr_set.service_sites.flatMap (fun service_site =>
    if ¬ is_eTLD_Plus1 etlds service_site then
      ["The provided service site is not an eTLD+1: " ++ service_site] else [])

/-- `RwsCheck.find_invalid_eTLD_Plus1`. -/
def find_invalid_eTLD_Plus1 (etlds : SuffixOracle) (check_sets : List (String × RwsSet))
    (s : CheckState) : CheckState :=
  { s with error_list := s.error_list ++ check_sets.flatMap (fun e => invalidEtldSetErrors etlds e.1 e.2) }

/-! ## Well-known manifest comparison (`check_well_known_list`,
`check_list_sites`, `find_invalid_well_known`) -/

/-- Python `sorted(set(list1) ^ set(list2))`: the deduplicated symmetric
difference, sorted lexicographically. -/
def symmDiffSorted (list1 list2 : List String) : List String :=
  sortStrings ((list1.filter (fun x => ¬ list2.contains x)
    ++ list2.filter (fun x => ¬ list1.contains x)).eraseDups)

/-- The single diagnostic string `check_well_known_list` builds. -/
def wkListMsg (field : String) (list1 list2 diff : List String) : String :=
  "Encountered an inequality between the PR submission and the " ++ WELL_KNOWN ++ " file:\n" ++
  "\t" ++ field ++ " was " ++ pyListRepr list1 ++ " in the PR, and " ++ pyListRepr list2
    ++ " in the well-known.\n" ++
  "\tDiff was: " ++ pyListRepr diff ++ "."

/-- `RwsCheck.check_well_known_list`. -/
def check_well_known_list (field : String) (list1 list2 : List String) : List String :=
  if list1 = list2 then []
  else [wkListMsg field list1 list2 (symmDiffSorted list1 list2)]

/-- The access-failure diagnostic shared by `check_list_sites` and
`find_invalid_well_known`. -/
def accessErrMsg (url : String) (inst : String) : String :=
  "Experienced an error when trying to access " ++ url ++ "; error was: " ++ inst

/-- The errors `check_list_sites` appends for one member site: fetch its
well-known manifest, require a `primary` key equal to the Set's primary;
any fetch failure becomes a single diagnostic. -/
def checkListSiteErrors (fetch_json : String → Except String ManifestJson)
    (primary : String) (site : String) : List String :=
  match fetch_json (site ++ WELL_KNOWN) with
  | Except.error inst => [accessErrMsg (site ++ WELL_KNOWN) inst]
  | Except.ok json_schema =>
    match json_schema.primary with
    | none => ["The listed associated site site did not have primary as a key in its "
        ++ WELL_KNOWN ++ " file: " ++ site]
    | some p =>
      if p ≠ primary then
        ["The listed associated site did not have " ++ primary ++ " listed as its primary: " ++ site]
      else []

/-- `RwsCheck.check_list_sites`. -/
def check_list_sites (fetch_json : String → Except String ManifestJson) (primary : String)
    (site_list : List String) (s : CheckState) : CheckState :=
  { s with error_list := s.error_list ++ site_list.flatMap (checkListSiteErrors fetch_json primary) }

/-- Python `dict.get(key, [])` on an insertion-ordered association list. -/
def lookupList (m : List (String × List String)) (k : String) : List String :=
  (((m.find? (fun e => e.1 == k)).map Prod.snd)).getD []

/-- Python `dict1 | dict2` key iteration order: `dict1`'s keys, then the keys
only in `dict2`. -/
def unionKeys (m1 m2 : List (String × List String)) : List String :=
  m1.map Prod.fst ++ (m2.map Prod.fst).filter (fun k => ¬ (m1.map Prod.fst).contains k)

/-- The errors `find_invalid_well_known` appends for one `check_sets` item:
fetch the primary's manifest, compare primaries and the three list-valued
fields, then run `check_list_sites` on all member sites. -/
def wellKnownSetErrors (fetch_json : String → Except String ManifestJson)
    (primary : String) (curr_rws_set : RwsSet) : List String :=
  (match fetch_json (primary ++ WELL_KNOWN) with
   | Except.error inst => [accessErrMsg (primary ++ WELL_KNOWN) inst]
   | Except.ok json_schema =>
     (if (RwsSet.make json_schema.ccTLDs json_schema.primary json_schema.associatedSites
          json_schema.serviceSites).primary ≠ curr_rws_set.primary then
        ["The " ++ WELL_KNOWN ++ " set\x27s primary ("
          ++ optStrRepr (RwsSet.make json_schema.ccTLDs json_schema.primary
              json_schema.associatedSites json_schema.serviceSites).primary
          ++ ") did not equal the PR set\x27s primary (" ++ optStrRepr curr_rws_set.primary ++ ")"]
      else []) ++
     check_well_known_list "associatedSites" curr_rws_set.associated_sites
       (RwsSet.make json_schema.ccTLDs json_schema.primary json_schema.associatedSites
         json_schema.serviceSites).associated_sites ++
     check_well_known_list "serviceSites" curr_rws_set.service_sites
       (RwsSet.make json_schema.ccTLDs json_schema.primary json_schema.associatedSites
         json_schema.serviceSites).service_sites ++
     (unionKeys curr_rws_set.ccTLDs
       (RwsSet.make json_schema.ccTLDs json_schema.primary json_schema.associatedSites
         json_schema.serviceSites).ccTLDs).flatMap (fun aliased_site =>
       check_well_known_list (aliased_site ++ " alias list")
         (lookupList curr_rws_set.ccTLDs aliased_site)
         (lookupList (RwsSet.make json_schema.ccTLDs json_schema.primary
           json_schema.associatedSites json_schema.serviceSites).ccTLDs aliased_site))) ++
  (curr_rws_set.associated_sites ++ curr_rws_set.service_sites
    ++ curr_rws_set.ccTLDs.flatMap Prod.snd).flatMap (checkListSiteErrors fetch_json primary)

/-- `RwsCheck.find_invalid_well_known`. -/
def find_invalid_well_known (fetch_json : String → Except String ManifestJson)
    (check_sets : List (String × RwsSet)) (s : CheckState) : CheckState :=
  { s with error_list := s.error_list ++ check_sets.flatMap (fun e => wellKnownSetErrors fetch_json e.1 e.2) }

/-! ## Removal confirmation (`RwsCheck.find_invalid_removal`) -/

/-- The errors `find_invalid_removal` appends for one removed primary. -/
def removalErrors (fetch_get : String → Except String HttpResp) (primary : String) : List String :=
  match fetch_get (primary ++ WELL_KNOWN) with
  | Except.ok r =>
    if r.status_code ≠ 404 then
      ["The set associated with " ++ primary ++ " was removed from the list, but "
        ++ primary ++ WELL_KNOWN ++ " does not return error 404."]
    else []
  | Except.error inst =>
    ["Unexpected error when accessing " ++ primary ++ WELL_KNOWN ++ "; Received error: " ++ inst]

/-- `RwsCheck.find_invalid_removal`. -/
def find_invalid_removal (fetch_get : String → Except String HttpResp)
    (subtracted_sets : List (String × RwsSet)) (s : CheckState) : CheckState :=
  { s with error_list := s.error_list ++ subtracted_sets.flatMap (fun e => removalErrors fetch_get e.1) }

/-! ## ccTLD alias and country-code legitimacy (`RwsCheck.find_invalid_alias_eSLDs`) -/

/-- Error text for an aliased site that is not a member of its own Set
(preserving the source's "firsty pary" typo). -/
def aliasMemberMsg (aliased_site primary : String) : String :=
  "The aliased site " ++ aliased_site
    ++ " contained within the ccTLDs must be a primary, associated site, or service site"
    ++ " within the firsty pary set for " ++ primary

/-- Error text for an alias whose second-level label differs from the aliased
site's. -/
def aliasEsldMsg (aliased_site site : String) : String :=
  "The following top level domain must match: " ++ aliased_site ++ ", but is instead: " ++ site

/-- Error text for an alias whose top-level label is not acceptable. -/
def aliasCcMsg (tld site : String) : String :=
  "The provided country code: " ++ tld ++ ", in: " ++ site
    ++ " is not a ICANN registered country code"

/-- The errors `find_invalid_alias_eSLDs` appends for one `(aliasedSite,
aliases)` entry of a Set: the membership check (via `includes` with the flag
false), then per alias the second-level-label match and the top-level-label
country-code check against `icanns` (extended by `"com"` when the aliased
site's own top-level label is in `icanns`). -/
def aliasEntryErrors (icanns : List String) (primary : String) (curr_set : RwsSet)
    (entry : String × List String) : List String :=
  (if ¬ curr_set.includes entry.1 false then [aliasMemberMsg entry.1 primary] else []) ++
  entry.2.flatMap (fun site =>
    (if firstLabel site ≠ firstLabel entry.1 then [aliasEsldMsg entry.1 site] else []) ++
    (if ¬ (if icanns.contains (lastLabel entry.1) then icanns ++ ["com"] else icanns).contains
        (lastLabel site) then
      [aliasCcMsg (lastLabel site) site] else []))

/-- `RwsCheck.find_invalid_alias_eSLDs`. -/
def find_invalid_alias_eSLDs (icanns : List String) (check_sets : List (String × RwsSet))
    (s : CheckState) : CheckState :=
  { s with error_list := s.error_list
      ++ check_sets.flatMap (fun e => e.2.ccTLDs.flatMap (aliasEntryErrors icanns e.1 e.2)) }

/-! ## Service-site indexing policy (`RwsCheck.find_robots_tag`) -/

/-- The errors `find_robots_tag` appends for one service site. -/
def robotsSiteErrors (fetch_nr : String → Except String RobotsResp) (service_site : String) :
    List String :=
  match fetch_nr service_site with
  | Except.error inst =>
    ["Unexpected error for service site: " ++ service_site ++ "; Received error: " ++ inst]
  | Except.ok r =>
    match r.xRobotsTag with
    | none => ["The service site " ++ service_site ++ " does not have an X-Robots-Tag in its header"]
    | some robots_tag =>
      if strContains ":" robots_tag then
        ["The service site " ++ service_site
          ++ " contains an \x27X-Robots-Tag\x27 that does not meet the policy requirements"]
      else if ¬ strContains "none" robots_tag ∧ ¬ strContains "noindex" robots_tag then
        ["The service site " ++ service_site
          ++ " does not have a \x27noindex\x27 or \x27none\x27 tag in its header"]
      else []

/-- `RwsCheck.find_robots_tag`. -/
def find_robots_tag (fetch_nr : String → Except String RobotsResp)
    (check_sets : List (String × RwsSet)) (s : CheckState) : CheckState :=
  { s with error_list := s.error_list
      ++ check_sets.flatMap (fun e => e.2.service_sites.flatMap (robotsSiteErrors fetch_nr)) }

/-! ## Service-site advertising policy (`RwsCheck.find_ads_txt`) -/

/-- The `exception_retries` pattern of `find_ads_txt`. -/
def adsRetriesPat : String := "Max retries exceeded with url: /ads.txt"

/-- The `exception_timeout` pattern shared by `find_ads_txt` and
`check_for_service_redirect`. -/
def timeoutPat : String := "Read timed out. (read timeout=10)"

/-- The unexpected-error diagnostic shared by `find_ads_txt` and
`check_for_service_redirect`. -/
def unexpectedServiceMsg (service_site inst : String) : String :=
  "Unexpected error for service site: " ++ service_site ++ "\nReceived error: " ++ inst

/-- The errors `find_ads_txt` appends for one service site: HTTP 200 on
`<site>/ads.txt` is a policy error; an exception is reported unless its text
contains one of the two benign patterns. -/
def adsSiteErrors (fetch_get : String → Except String HttpResp) (service_site : String) :
    List String :=
  match fetch_get (service_site ++ "/ads.txt") with
  | Except.ok r =>
    if r.status_code = 200 then
      ["The service site " ++ service_site
        ++ " has an ads.txt file, this violates the policies for service sites"]
    else []
  | Except.error inst =>
    if ¬ strContains adsRetriesPat inst then
      if ¬ strContains timeoutPat inst then [unexpectedServiceMsg service_site inst] else []
    else []

/-- `RwsCheck.find_ads_txt`. -/
def find_ads_txt (fetch_get : String → Except String HttpResp)
    (check_sets : List (String × RwsSet)) (s : CheckState) : CheckState :=
  { s with error_list := s.error_list
      ++ check_sets.flatMap (fun e => e.2.service_sites.flatMap (adsSiteErrors fetch_get)) }

/-! ## Service-site non-endpoint policy (`RwsCheck.check_for_service_redirect`) -/

/-- The `exception_retries` pattern of `check_for_service_redirect`. -/
def rootRetriesPat : String := "Max retries exceeded with url: /"

/-- The errors `check_for_service_redirect` appends for one service site. -/
def redirectSiteErrors (fetch_get : String → Except String HttpResp) (service_site : String) :
    List String :=
  match fetch_get service_site with
  | Except.ok r =>
    if r.status_code < 400 ∨ 600 ≤ r.status_code then
      if r.url = service_site ∨ r.url = service_site ++ "/" then
        ["The service site must not be an endpoint: " ++ service_site]
      else []
    else []
  | Except.error inst =>
    if ¬ strContains rootRetriesPat inst then
      if ¬ strContains timeoutPat inst then [unexpectedServiceMsg service_site inst] else []
    else []

/-- `RwsCheck.check_for_service_redirect`. -/
def check_for_service_redirect (fetch_get : String → Except String HttpResp)
    (check_sets : List (String × RwsSet)) (s : CheckState) : CheckState :=
  { s with error_list := s.error_list
      ++ check_sets.flatMap (fun e => e.2.service_sites.flatMap (redirectSiteErrors fetch_get)) }

/-! ## Helper lemmas -/

/-- Substring-as-concatenation predicate: `needle` occurs inside `hay`. -/
def strHasSub (hay needle : String) : Prop := ∃ a b : String, hay = a ++ needle ++ b

/-- Specification-side description of the duplicate-primary errors: one error
per record whose primary was already seen, in record order. -/
def dupPrimaryMsgs : List String → List RawRecord → List String
  | _, [] => []
  | seen, r :: rest =>
    if seen.contains r.primary then dupPrimaryMsg r.primary :: dupPrimaryMsgs seen rest
    else dupPrimaryMsgs (seen ++ [r.primary]) rest

lemma loadSetsAux_errors (docs : List RawRecord) : ∀ cs,
    (loadSetsAux docs cs).2 = dupPrimaryMsgs (cs.map Prod.fst) docs := by
  induction docs with
  | nil => intro cs; rfl
  | cons r rest ih =>
    intro cs
    by_cases h : r.primary ∈ cs.map Prod.fst
    · simp [loadSetsAux, dupPrimaryMsgs, h, ih]
    · simp [loadSetsAux, dupPrimaryMsgs, h, ih]

lemma loadSetsAux_keys_nodup (docs : List RawRecord) : ∀ cs,
    (cs.map Prod.fst).Nodup → ((loadSetsAux docs cs).1.map Prod.fst).Nodup := by
  induction docs with
  | nil => intro cs h; exact h
  | cons r rest ih =>
    intro cs h
    by_cases hc : r.primary ∈ cs.map Prod.fst
    · simpa [loadSetsAux, hc] using ih cs h
    · have hnd : ((cs ++ [(r.primary, mkRwsSet r)]).map Prod.fst).Nodup := by
        simp [List.nodup_append, h, hc]
      simpa [loadSetsAux, hc] using ih _ hnd

lemma find_key_isSome (cs : List (String × RwsSet)) (p : String)
    (h : p ∈ cs.map Prod.fst) : (cs.find? (fun e => e.1 == p)).isSome := by
  rw [List.find?_isSome]
  obtain ⟨e, he, hfst⟩ := List.mem_map.mp h
  exact ⟨e, he, by simp [hfst]⟩

lemma loadSetsAux_find (docs : List RawRecord) : ∀ cs (p : String),
    ((loadSetsAux docs cs).1.find? (fun e => e.1 == p))
      = ((cs.find? (fun e => e.1 == p)).or
          ((docs.find? (fun r => r.primary == p)).map (fun r => (r.primary, mkRwsSet r)))) := by
  induction docs with
  | nil => intro cs p; simp [loadSetsAux]
  | cons r rest ih =>
    intro cs p
    by_cases hc : r.primary ∈ cs.map Prod.fst
    · by_cases hp : r.primary = p
      · subst hp
        obtain ⟨x, hx⟩ := Option.isSome_iff_exists.mp (find_key_isSome cs r.primary hc)
        simp [loadSetsAux, hc, ih, hx, List.find?_cons]
      · have hb : (r.primary == p) = false := by simpa using hp
        simp [loadSetsAux, hc, ih, List.find?_cons, hb]
    · have hb : (cs ++ [(r.primary, mkRwsSet r)]).find? (fun e => e.1 == p)
          = ((cs.find? (fun e => e.1 == p)).or
              ([(r.primary, mkRwsSet r)].find? (fun e => e.1 == p))) :=
        List.find?_append
      by_cases hp : r.primary = p
      · have hbeq : (r.primary == p) = true := by simpa using hp
        simp [loadSetsAux, hc, ih, hb, List.find?_cons, hbeq, Option.or_assoc]
      · have hbeq : (r.primary == p) = false := by simpa using hp
        simp [loadSetsAux, hc, ih, hb, List.find?_cons, hbeq]

lemma dupPrimaryMsg_inj {p q : String} (h : dupPrimaryMsg p = dupPrimaryMsg q) : p = q := by
  have h2 := congrArg String.data h
  simp only [dupPrimaryMsg, String.data_append] at h2
  have h3 := List.append_cancel_right h2
  cases p; cases q
  exact congrArg String.mk h3

lemma dupPrimaryMsgs_count (p : String) : ∀ (docs : List RawRecord) (seen : List String),
    (dupPrimaryMsgs seen docs).count (dupPrimaryMsg p)
      = (if p ∈ seen then (docs.map RawRecord.primary).count p
         else (docs.map RawRecord.primary).count p - 1) := by
  intro docs
  induction docs with
  | nil => intro seen; by_cases h : p ∈ seen <;> simp [dupPrimaryMsgs, h]
  | cons r rest ih =>
    intro seen
    by_cases hs : r.primary ∈ seen
    · by_cases hp : r.primary = p
      · subst hp
        simp [dupPrimaryMsgs, hs, ih, List.count_cons]
      · have hmsg : (dupPrimaryMsg r.primary == dupPrimaryMsg p) = false := by
          simp only [beq_eq_false_iff_ne, ne_eq]
          exact fun hh => hp (dupPrimaryMsg_inj hh)
        have hb : (r.primary == p) = false := by simpa using hp
        by_cases hsp : p ∈ seen <;>
          simp [dupPrimaryMsgs, hs, ih, List.count_cons, hmsg, hb, hsp]
    · by_cases hp : r.primary = p
      · subst hp
        have hsp : r.primary ∈ seen ++ [r.primary] := by simp
        simp [dupPrimaryMsgs, hs, ih, hsp, List.count_cons]
      · have hb : (r.primary == p) = false := by simpa using hp
        have hne : p ≠ r.primary := fun hh => hp hh.symm
        by_cases hsp : p ∈ seen <;>
          simp [dupPrimaryMsgs, hs, ih, List.count_cons, hb, hsp, List.mem_append, hne]

lemma wkListMsg_sub_field (field : String) (l1 l2 d : List String) :
    strHasSub (wkListMsg field l1 l2 d) field :=
  ⟨"Encountered an inequality between the PR submission and the " ++ WELL_KNOWN
      ++ " file:\n" ++ "\t",
   " was " ++ pyListRepr l1 ++ " in the PR, and " ++ pyListRepr l2 ++ " in the well-known.\n"
      ++ "\tDiff was: " ++ pyListRepr d ++ ".",
   by simp [wkListMsg, String.append_assoc]⟩

lemma wkListMsg_sub_list1 (field : String) (l1 l2 d : List String) :
    strHasSub (wkListMsg field l1 l2 d) (pyListRepr l1) :=
  ⟨"Encountered an inequality between the PR submission and the " ++ WELL_KNOWN
      ++ " file:\n" ++ "\t" ++ field ++ " was ",
   " in the PR, and " ++ pyListRepr l2 ++ " in the well-known.\n"
      ++ "\tDiff was: " ++ pyListRepr d ++ ".",
   by simp [wkListMsg, String.append_assoc]⟩

lemma wkListMsg_sub_list2 (field : String) (l1 l2 d : List String) :
    strHasSub (wkListMsg field l1 l2 d) (pyListRepr l2) :=
  ⟨"Encountered an inequality between the PR submission and the " ++ WELL_KNOWN
      ++ " file:\n" ++ "\t" ++ field ++ " was " ++ pyListRepr l1 ++ " in the PR, and ",
   " in the well-known.\n" ++ "\tDiff was: " ++ pyListRepr d ++ ".",
   by simp [wkListMsg, String.append_assoc]⟩

lemma wkListMsg_sub_diff (field : String) (l1 l2 d : List String) :
    strHasSub (wkListMsg field l1 l2 d) (pyListRepr d) :=
  ⟨"Encountered an inequality between the PR submission and the " ++ WELL_KNOWN
      ++ " file:\n" ++ "\t" ++ field ++ " was " ++ pyListRepr l1 ++ " in the PR, and "
      ++ pyListRepr l2 ++ " in the well-known.\n" ++ "\tDiff was: ",
   ".",
   by simp [wkListMsg, String.append_assoc]⟩

lemma symmDiffSorted_of_perm {list1 list2 : List String} (h : list1.Perm list2) :
    symmDiffSorted list1 list2 = [] := by
  have h1 : list1.filter (fun x => ¬ list2.contains x) = [] := by
    rw [List.filter_eq_nil_iff]
    intro a ha
    simp [h.mem_iff.mp ha]
  have h2 : list2.filter (fun x => ¬ list1.contains x) = [] := by
    rw [List.filter_eq_nil_iff]
    intro a ha
    simp [h.mem_iff.mpr ha]
  unfold symmDiffSorted
  rw [h1, h2]
  rfl

lemma icann_check_contains (icanns : List String) (atld t : String) :
    ((if icanns.contains atld then icanns ++ ["com"] else icanns).contains t = true)
      ↔ (t ∈ icanns ∨ (t = "com" ∧ atld ∈ icanns)) := by
  by_cases ha : atld ∈ icanns
  · simp [ha, List.mem_append]
  · simp [ha]

lemma aliasEntryErrors_eq (icanns : List String) (primary : String) (curr_set : RwsSet)
    (entry : String × List String) :
    aliasEntryErrors icanns primary curr_set entry
      = (if curr_set.includes entry.1 false = false then [aliasMemberMsg entry.1 primary]
         else []) ++
        entry.2.flatMap (fun site =>
          (if firstLabel site ≠ firstLabel entry.1 then [aliasEsldMsg entry.1 site] else []) ++
          (if ¬ (lastLabel site ∈ icanns ∨ (lastLabel site = "com" ∧ lastLabel entry.1 ∈ icanns))
           then [aliasCcMsg (lastLabel site) site] else [])) := by
  unfold aliasEntryErrors
  congr 1
  · by_cases h : curr_set.includes entry.1 false <;> simp [h]
  · apply congrArg
    funext site
    congr 1
    exact if_congr
      (not_congr (icann_check_contains icanns (lastLabel entry.1) (lastLabel site))) rfl rfl

lemma loadSetsAux_append (l1 l2 : List RawRecord) : ∀ cs,
    loadSetsAux (l1 ++ l2) cs
      = ((loadSetsAux l2 (loadSetsAux l1 cs).1).1,
         (loadSetsAux l1 cs).2 ++ (loadSetsAux l2 (loadSetsAux l1 cs).1).2) := by
  induction l1 with
  | nil => intro cs; simp [loadSetsAux]
  | cons r rest ih =>
    intro cs
    by_cases h : r.primary ∈ cs.map Prod.fst <;> simp [loadSetsAux, h, ih]

lemma exclAux_append (l1 l2 : List (String × RwsSet)) : ∀ sl,
    exclAux (l1 ++ l2) sl
      = ((exclAux l2 (exclAux l1 sl).1).1,
         (exclAux l1 sl).2 ++ (exclAux l2 (exclAux l1 sl).1).2) := by
  induction l1 with
  | nil => intro sl; simp [exclAux]
  | cons e rest ih => intro sl; simp [exclAux, ih]

lemma flatMap_ite_filter_map (p : String × RwsSet → Prop) [DecidablePred p]
    (g : String × RwsSet → String) : ∀ l : List (String × RwsSet),
    l.flatMap (fun e => if p e then [g e] else []) = (l.filter (fun e => p e)).map g := by
  intro l
  induction l with
  | nil => rfl
  | cons a t ih => by_cases h : p a <;> simp [h, ih]

/-! ## Claim theorems -/

/-- Concrete Set whose associated site is the other Set's primary, for the
exclusivity ordering test. -/
def exclSetA : RwsSet := ⟨[], some "https://a.example", ["https://p.example"], []⟩

/-- Concrete Set owning the contested primary, for the exclusivity ordering
test. -/
def exclSetB : RwsSet := ⟨[], some "https://p.example", [], []⟩

/-- C1: the claim says `check_exclusivity` is order-symmetric — for two Sets
where Set A's associated site equals Set B's primary, exactly one overlap
error naming that domain is produced regardless of map order.  The code
violates this: in order `[A, B]` it produces exactly the one claimed error,
but in order `[B, A]` it produces none, because `site_list.update(primary)`
adds the primary's individual *characters* to the claimed set rather than
the primary string, so a later associated site equal to an earlier primary
is never detected — contradicting the function's own docstring ("a primary
of one set cannot be an associated site of another"). -/
theorem claim_C1_code_bug :
    (check_exclusivity [("https://a.example", exclSetA), ("https://p.example", exclSetB)]
      ⟨[], []⟩).error_list = [exclPrimaryMsg "https://p.example"]
  ∧ (check_exclusivity [("https://p.example", exclSetB), ("https://a.example", exclSetA)]
      ⟨[], []⟩).error_list = [] := by
  constructor <;> rfl

/-- Concrete record with no associated or service sites and no
`rationaleBySite` mapping. -/
def rEmpty : RawRecord := ⟨"https://a.example", none, none, none, none⟩

/-- C2 (counterexample): the claim says a record whose combined
associated+service sites list is empty never yields the missing-
`rationaleBySite` error.  On the code, a record with an empty combined list
and no mapping *does* yield that error, because the guard `sites != None`
is vacuously true for a list. -/
theorem claim_C2_counterexample :
    (rEmpty.associatedSites.getD [] ++ rEmpty.serviceSites.getD []) = []
  ∧ (has_all_rationales [rEmpty] (load_sets [rEmpty] ⟨[], []⟩).1
      (load_sets [rEmpty] ⟨[], []⟩).2).error_list = [rationaleRequiredMsg] := by
  constructor <;> rfl

/-- C2 (amended): for a record whose primary is a key of `check_sets`,
`has_all_rationales` appends the missing-`rationaleBySite` error exactly
when no mapping is present — regardless of whether the combined
associated+service list is empty — and when the mapping is present it
appends exactly one error per listed site that has no entry in the
mapping. -/
theorem claim_C2_amended (r : RawRecord) (cs : List (String × RwsSet)) (s : CheckState)
    (h : r.primary ∈ cs.map Prod.fst) :
    (has_all_rationales [r] cs s).error_list
      = s.error_list ++ (match r.rationaleBySite with
        | none => [rationaleRequiredMsg]
        | some rationales =>
          ((r.associatedSites.getD [] ++ r.serviceSites.getD []).filter
            (fun site => ¬ (rationales.map Prod.fst).contains site)).map noRationaleMsg) := by
  cases hr : r.rationaleBySite with
  | none => simp [has_all_rationales, rationaleRecordErrors, h, hr]
  | some rationales =>
    by_cases hs : r.associatedSites.getD [] ++ r.serviceSites.getD [] = []
    · simp [has_all_rationales, rationaleRecordErrors, h, hr, hs]
    · simp [has_all_rationales, rationaleRecordErrors, h, hr, hs]

/-- Concrete record listing two associated sites but providing a rationale
for only one of them. -/
def rWit : RawRecord :=
  ⟨"https://p.example", none, some ["https://a.example", "https://b.example"], none,
   some [("https://a.example", "service")]⟩

/-- Witness for C2: evaluating the amended claim at a concrete record with
one missing per-site rationale. -/
theorem claim_C2_witness :
    (has_all_rationales [rWit] [("https://p.example", mkRwsSet rWit)] ⟨[], []⟩).error_list
      = [noRationaleMsg "https://b.example"] :=
  (claim_C2_amended rWit [("https://p.example", mkRwsSet rWit)] ⟨[], []⟩ (by decide)).trans
    (by decide)

/-- Concrete first record for a duplicated primary, with a complete
rationale mapping. -/
def rDup1 : RawRecord :=
  ⟨"https://p.example", none, some ["https://a.example"], none,
   some [("https://a.example", "x")]⟩

/-- Concrete second record with the same primary and no rationale mapping. -/
def rDup2 : RawRecord :=
  ⟨"https://p.example", none, some ["https://b.example"], none, none⟩

/-- C3 (counterexample): the claim says every check after loading — the
rationale-completeness check over the raw records included — operates only
on the first record's data for a duplicated primary.  On the code, the
later duplicate record is still processed by `has_all_rationales` (its
primary is a key of the loaded map), so it contributes the
missing-`rationaleBySite` error even though the first record's data is
complete. -/
theorem claim_C3_counterexample :
    (has_all_rationales [rDup1, rDup2] (load_sets [rDup1, rDup2] ⟨[], []⟩).1
      (load_sets [rDup1, rDup2] ⟨[], []⟩).2).error_list
      = [dupPrimaryMsg "https://p.example", rationaleRequiredMsg]
  ∧ rationaleRecordErrors (load_sets [rDup1, rDup2] ⟨[], []⟩).1 rDup1 = [] := by
  constructor <;> rfl

/-- C3 (amended): for a duplicated primary, the loaded map retains only the
first record (so every check over the map sees only it) and logs one
duplicate-primary error; but `has_all_rationales` iterates the raw records
and still processes the later duplicate record — it skips only records
whose primary is absent from the map — so a duplicate record without a
`rationaleBySite` mapping still yields the missing-mapping error. -/
theorem claim_C3_amended (r1 r2 : RawRecord) (s s2 : CheckState) (h : r1.primary = r2.primary) :
    ((load_sets [r1, r2] s).1 = [(r1.primary, mkRwsSet r1)])
  ∧ ((load_sets [r1, r2] s).2.error_list = s.error_list ++ [dupPrimaryMsg r2.primary])
  ∧ ((has_all_rationales [r1, r2] (load_sets [r1, r2] s).1 s2).error_list
      = s2.error_list
        ++ rationaleRecordErrors (load_sets [r1, r2] s).1 r1
        ++ rationaleRecordErrors (load_sets [r1, r2] s).1 r2)
  ∧ (r2.rationaleBySite = none →
      rationaleRecordErrors (load_sets [r1, r2] s).1 r2 = [rationaleRequiredMsg]) := by
  have hload : loadSetsAux [r1, r2] [] = ([(r1.primary, mkRwsSet r1)], [dupPrimaryMsg r2.primary]) := by
    simp [loadSetsAux, ← h]
  refine ⟨?_, ?_, ?_, ?_⟩
  · simp [load_sets, hload]
  · simp [load_sets, hload]
  · simp [has_all_rationales, List.append_assoc]
  · intro hr
    have hmem : r2.primary ∈ ((load_sets [r1, r2] s).1.map Prod.fst) := by
      simp [load_sets, hload, h]
    simp [rationaleRecordErrors, hr, hmem]

/-- Witness for C3: the amended claim evaluated at the concrete duplicate
records. -/
theorem claim_C3_witness :
    ((load_sets [rDup1, rDup2] ⟨[], []⟩).1 = [(rDup1.primary, mkRwsSet rDup1)])
  ∧ ((load_sets [rDup1, rDup2] ⟨[], []⟩).2.error_list = [] ++ [dupPrimaryMsg rDup2.primary])
  ∧ ((has_all_rationales [rDup1, rDup2] (load_sets [rDup1, rDup2] ⟨[], []⟩).1 ⟨[], []⟩).error_list
      = [] ++ rationaleRecordErrors (load_sets [rDup1, rDup2] ⟨[], []⟩).1 rDup1
        ++ rationaleRecordErrors (load_sets [rDup1, rDup2] ⟨[], []⟩).1 rDup2)
  ∧ (rDup2.rationaleBySite = none →
      rationaleRecordErrors (load_sets [rDup1, rDup2] ⟨[], []⟩).1 rDup2
        = [rationaleRequiredMsg]) :=
  claim_C3_amended rDup1 rDup2 ⟨[], []⟩ ⟨[], []⟩ rfl

/-- C4: `load_sets` returns a map whose key list has no duplicates, keyed by
primary and retaining the first record per primary (looking up any primary
finds exactly the first matching record's Set); each occurrence of a
primary after the first inserts nothing and appends exactly one error
`"<primary> is already a primary of another site"`, so a primary listed
twice yields exactly one uniqueness error (count per primary is the number
of its occurrences minus one). -/
theorem claim_C4 (docs : List RawRecord) (s : CheckState) :
    ((load_sets docs s).1.map Prod.fst).Nodup
  ∧ (∀ p, ((load_sets docs s).1.find? (fun e => e.1 == p))
      = ((docs.find? (fun r => r.primary == p)).map (fun r => (r.primary, mkRwsSet r))))
  ∧ ((load_sets docs s).2.error_list = s.error_list ++ dupPrimaryMsgs [] docs)
  ∧ (∀ p, (dupPrimaryMsgs [] docs).count (dupPrimaryMsg p)
      = (docs.map RawRecord.primary).count p - 1) := by
  refine ⟨?_, ?_, ?_, ?_⟩
  · simpa [load_sets] using loadSetsAux_keys_nodup docs [] (by simp)
  · intro p
    simpa [load_sets] using loadSetsAux_find docs [] p
  · simp [load_sets, loadSetsAux_errors]
  · intro p
    simpa using dupPrimaryMsgs_count p docs []

/-- C5: `is_eTLD_Plus1` strips a leading `https://` if present and, for any
non-empty domain and any suffix oracle, returns true iff the stripped
string equals its own registrable-domain (`get_sld`) form under strict
matching and differs from its own bare-suffix (`get_tld`) form; with a
suffix oracle recognizing exactly `"com"` it returns false on the bare TLD
`"com"` and true on `"example.com"`. -/
theorem claim_C5 :
    (∀ (o : SuffixOracle) (site : String), site ≠ "" →
      (is_eTLD_Plus1 o site = true ↔
        (o.get_sld (stripHttps site) = some (stripHttps site)
          ∧ o.get_tld (stripHttps site) ≠ some (stripHttps site))))
  ∧ is_eTLD_Plus1 comOracle "com" = false
  ∧ is_eTLD_Plus1 comOracle "example.com" = true := by
  refine ⟨fun o site _ => ?_, by decide, by decide⟩
  simp [is_eTLD_Plus1]

/-- Witness for C5: the characterization applied at `comOracle` and the
concrete domain `"example.com"`. -/
theorem claim_C5_witness :
    is_eTLD_Plus1 comOracle "example.com" = true ↔
      (comOracle.get_sld (stripHttps "example.com") = some (stripHttps "example.com")
        ∧ comOracle.get_tld (stripHttps "example.com") ≠ some (stripHttps "example.com")) :=
  claim_C5.1 comOracle "example.com" (by decide)

/-- C6: `check_well_known_list` returns the empty list exactly when the two
lists are equal as ordered lists; otherwise it returns exactly one
diagnostic string that contains the field name, both lists (as rendered by
the f-string), and the sorted symmetric set difference of the two lists —
which is empty for a pure permutation. -/
theorem claim_C6 (field : String) (list1 list2 : List String) :
    (check_well_known_list field list1 list2 = [] ↔ list1 = list2)
  ∧ (list1 ≠ list2 →
      check_well_known_list field list1 list2
        = [wkListMsg field list1 list2 (symmDiffSorted list1 list2)]
      ∧ strHasSub (wkListMsg field list1 list2 (symmDiffSorted list1 list2)) field
      ∧ strHasSub (wkListMsg field list1 list2 (symmDiffSorted list1 list2)) (pyListRepr list1)
      ∧ strHasSub (wkListMsg field list1 list2 (symmDiffSorted list1 list2)) (pyListRepr list2)
      ∧ strHasSub (wkListMsg field list1 list2 (symmDiffSorted list1 list2))
          (pyListRepr (symmDiffSorted list1 list2)))
  ∧ (list1.Perm list2 → symmDiffSorted list1 list2 = []) := by
  refine ⟨?_,
    fun h => ⟨by simp [check_well_known_list, h],
      wkListMsg_sub_field field list1 list2 (symmDiffSorted list1 list2),
      wkListMsg_sub_list1 field list1 list2 (symmDiffSorted list1 list2),
      wkListMsg_sub_list2 field list1 list2 (symmDiffSorted list1 list2),
      wkListMsg_sub_diff field list1 list2 (symmDiffSorted list1 list2)⟩,
    symmDiffSorted_of_perm⟩
  by_cases h : list1 = list2 <;> simp [check_well_known_list, h]

/-- Witness for C6: the unequal-lists branch evaluated at two concrete
one-element lists. -/
theorem claim_C6_witness :
    check_well_known_list "associatedSites" ["https://a.example"] ["https://b.example"]
      = [wkListMsg "associatedSites" ["https://a.example"] ["https://b.example"]
          (symmDiffSorted ["https://a.example"] ["https://b.example"])] :=
  ((claim_C6 "associatedSites" ["https://a.example"] ["https://b.example"]).2.1 (by decide)).1

/-- C7: `find_invalid_alias_eSLDs` appends, per ccTLD entry, the membership
error exactly when the aliased site is not a member of its own Set (via
`includes` with the primary-only flag false), and per alias one error when
its first `'.'`-segment differs from the aliased site's and one error when
its last `'.'`-segment is outside the acceptable set — the recognized
country codes united with `{"com"}` iff the aliased site's last segment is
itself a recognized country code, and exactly the recognized country codes
otherwise.  It never touches the warning list. -/
theorem claim_C7 (icanns : List String) (check_sets : List (String × RwsSet)) (s : CheckState) :
    ((find_invalid_alias_eSLDs icanns check_sets s).error_list
      = s.error_list ++ check_sets.flatMap (fun e => e.2.ccTLDs.flatMap (fun entry =>
          (if e.2.includes entry.1 false = false then [aliasMemberMsg entry.1 e.1] else []) ++
          entry.2.flatMap (fun site =>
            (if firstLabel site ≠ firstLabel entry.1 then [aliasEsldMsg entry.1 site] else []) ++
            (if ¬ (lastLabel site ∈ icanns ∨ (lastLabel site = "com" ∧ lastLabel entry.1 ∈ icanns))
             then [aliasCcMsg (lastLabel site) site] else [])))))
  ∧ (find_invalid_alias_eSLDs icanns check_sets s).warning_texts = s.warning_texts := by
  constructor
  · have hfun : ∀ e : String × RwsSet,
        e.2.ccTLDs.flatMap (aliasEntryErrors icanns e.1 e.2)
          = e.2.ccTLDs.flatMap (fun entry =>
              (if e.2.includes entry.1 false = false then [aliasMemberMsg entry.1 e.1] else []) ++
              entry.2.flatMap (fun site =>
                (if firstLabel site ≠ firstLabel entry.1 then [aliasEsldMsg entry.1 site] else []) ++
                (if ¬ (lastLabel site ∈ icanns ∨ (lastLabel site = "com" ∧ lastLabel entry.1 ∈ icanns))
                 then [aliasCcMsg (lastLabel site) site] else []))) := by
      intro e
      exact congrArg _ (funext (aliasEntryErrors_eq icanns e.1 e.2))
    simp only [find_invalid_alias_eSLDs, hfun]
  · rfl

/-- C8: `find_ads_txt` appends a diagnostic for a service site iff the GET of
`<site>/ads.txt` returns status 200 or raises an exception whose text
matches neither benign pattern; a benign-pattern exception or any non-200
response yields no diagnostic; and processing decomposes over the input
collection, so no failure aborts the remaining service sites. -/
theorem claim_C8 (fetch_get : String → Except String HttpResp)
    (check_sets : List (String × RwsSet)) (s : CheckState) :
    ((find_ads_txt fetch_get check_sets s).error_list
      = s.error_list
        ++ check_sets.flatMap (fun e => e.2.service_sites.flatMap (adsSiteErrors fetch_get)))
  ∧ (∀ service_site,
      adsSiteErrors fetch_get service_site ≠ [] ↔
        ((∃ r, fetch_get (service_site ++ "/ads.txt") = Except.ok r ∧ r.status_code = 200)
        ∨ (∃ t, fetch_get (service_site ++ "/ads.txt") = Except.error t
            ∧ strContains adsRetriesPat t = false ∧ strContains timeoutPat t = false)))
  ∧ (∀ (l1 l2 : List (String × RwsSet)) (s2 : CheckState),
      find_ads_txt fetch_get (l1 ++ l2) s2 = find_ads_txt fetch_get l2 (find_ads_txt fetch_get l1 s2))
  ∧ (find_ads_txt fetch_get check_sets s).warning_texts = s.warning_texts := by
  refine ⟨rfl, ?_, ?_, rfl⟩
  · intro site
    cases hf : fetch_get (site ++ "/ads.txt") with
    | ok r => by_cases h2 : r.status_code = 200 <;> simp [adsSiteErrors, hf, h2]
    | error t =>
      by_cases hr : strContains adsRetriesPat t <;> by_cases ht : strContains timeoutPat t <;>
        simp [adsSiteErrors, hf, hr, ht]
  · intro l1 l2 s2
    cases s2
    simp [find_ads_txt, List.flatMap_append, List.append_assoc]

/-- C9: diagnostics accumulate monotonically — every check (structural and
remote) only appends to `error_list` and `warning_texts` (for each check the
previous contents are a prefix of the new contents) — and no check returns
early on a finding: each check's processing of a collection decomposes
through every element, with the loader's and the exclusivity check's
carried accumulators threaded on, so every element is still examined after
earlier violations. -/
theorem claim_C9 :
    (∀ docs (s : CheckState), ∃ t w, (load_sets docs s).2.error_list = s.error_list ++ t
        ∧ (load_sets docs s).2.warning_texts = s.warning_texts ++ w)
  ∧ (∀ (l1 l2 : List RawRecord) cs, loadSetsAux (l1 ++ l2) cs
        = ((loadSetsAux l2 (loadSetsAux l1 cs).1).1,
           (loadSetsAux l1 cs).2 ++ (loadSetsAux l2 (loadSetsAux l1 cs).1).2))
  ∧ (∀ docs cs (s : CheckState), ∃ t w,
        (has_all_rationales docs cs s).error_list = s.error_list ++ t
        ∧ (has_all_rationales docs cs s).warning_texts = s.warning_texts ++ w)
  ∧ (∀ (l1 l2 : List RawRecord) cs (s : CheckState),
        has_all_rationales (l1 ++ l2) cs s = has_all_rationales l2 cs (has_all_rationales l1 cs s))
  ∧ (∀ cs (s : CheckState), ∃ t w, (check_exclusivity cs s).error_list = s.error_list ++ t
        ∧ (check_exclusivity cs s).warning_texts = s.warning_texts ++ w)
  ∧ (∀ (l1 l2 : List (String × RwsSet)) sl, exclAux (l1 ++ l2) sl
        = ((exclAux l2 (exclAux l1 sl).1).1,
           (exclAux l1 sl).2 ++ (exclAux l2 (exclAux l1 sl).1).2))
  ∧ (∀ cs (s : CheckState), ∃ t w, (check_associated_count cs s).error_list = s.error_list ++ t
        ∧ (check_associated_count cs s).warning_texts = s.warning_texts ++ w)
  ∧ (∀ (l1 l2 : List (String × RwsSet)) (s : CheckState),
        check_associated_count (l1 ++ l2) s = check_associated_count l2 (check_associated_count l1 s))
  ∧ (∀ cs (s : CheckState), ∃ t w, (find_non_https_urls cs s).error_list = s.error_list ++ t
        ∧ (find_non_https_urls cs s).warning_texts = s.warning_texts ++ w)
  ∧ (∀ (l1 l2 : List (String × RwsSet)) (s : CheckState),
        find_non_https_urls (l1 ++ l2) s = find_non_https_urls l2 (find_non_https_urls l1 s))
  ∧ (∀ o cs (s : CheckState), ∃ t w,
        (find_invalid_eTLD_Plus1 o cs s).error_list = s.error_list ++ t
        ∧ (find_invalid_eTLD_Plus1 o cs s).warning_texts = s.warning_texts ++ w)
  ∧ (∀ o (l1 l2 : List (String × RwsSet)) (s : CheckState),
        find_invalid_eTLD_Plus1 o (l1 ++ l2) s
          = find_invalid_eTLD_Plus1 o l2 (find_invalid_eTLD_Plus1 o l1 s))
  ∧ (∀ f p sl (s : CheckState), ∃ t w, (check_list_sites f p sl s).error_list = s.error_list ++ t
        ∧ (check_list_sites f p sl s).warning_texts = s.warning_texts ++ w)
  ∧ (∀ f p (l1 l2 : List String) (s : CheckState),
        check_list_sites f p (l1 ++ l2) s = check_list_sites f p l2 (check_list_sites f p l1 s))
  ∧ (∀ f cs (s : CheckState), ∃ t w,
        (find_invalid_well_known f cs s).error_list = s.error_list ++ t
        ∧ (find_invalid_well_known f cs s).warning_texts = s.warning_texts ++ w)
  ∧ (∀ f (l1 l2 : List (String × RwsSet)) (s : CheckState),
        find_invalid_well_known f (l1 ++ l2) s
          = find_invalid_well_known f l2 (find_invalid_well_known f l1 s))
  ∧ (∀ f cs (s : CheckState), ∃ t w, (find_invalid_removal f cs s).error_list = s.error_list ++ t
        ∧ (find_invalid_removal f cs s).warning_texts = s.warning_texts ++ w)
  ∧ (∀ f (l1 l2 : List (String × RwsSet)) (s : CheckState),
        find_invalid_removal f (l1 ++ l2) s = find_invalid_removal f l2 (find_invalid_removal f l1 s))
  ∧ (∀ ic cs (s : CheckState), ∃ t w,
        (find_invalid_alias_eSLDs ic cs s).error_list = s.error_list ++ t
        ∧ (find_invalid_alias_eSLDs ic cs s).warning_texts = s.warning_texts ++ w)
  ∧ (∀ ic (l1 l2 : List (String × RwsSet)) (s : CheckState),
        find_invalid_alias_eSLDs ic (l1 ++ l2) s
          = find_invalid_alias_eSLDs ic l2 (find_invalid_alias_eSLDs ic l1 s))
  ∧ (∀ f cs (s : CheckState), ∃ t w, (find_robots_tag f cs s).error_list = s.error_list ++ t
        ∧ (find_robots_tag f cs s).warning_texts = s.warning_texts ++ w)
  ∧ (∀ f (l1 l2 : List (String × RwsSet)) (s : CheckState),
        find_robots_tag f (l1 ++ l2) s = find_robots_tag f l2 (find_robots_tag f l1 s))
  ∧ (∀ f cs (s : CheckState), ∃ t w, (find_ads_txt f cs s).error_list = s.error_list ++ t
        ∧ (find_ads_txt f cs s).warning_texts = s.warning_texts ++ w)
  ∧ (∀ f (l1 l2 : List (String × RwsSet)) (s : CheckState),
        find_ads_txt f (l1 ++ l2) s = find_ads_txt f l2 (find_ads_txt f l1 s))
  ∧ (∀ f cs (s : CheckState), ∃ t w,
        (check_for_service_redirect f cs s).error_list = s.error_list ++ t
        ∧ (check_for_service_redirect f cs s).warning_texts = s.warning_texts ++ w)
  ∧ (∀ f (l1 l2 : List (String × RwsSet)) (s : CheckState),
        check_for_service_redirect f (l1 ++ l2) s
          = check_for_service_redirect f l2 (check_for_service_redirect f l1 s)) := by
  refine ⟨fun docs s => ⟨_, [], rfl, (List.append_nil _).symm⟩,
    fun l1 l2 cs => loadSetsAux_append l1 l2 cs,
    fun docs cs s => ⟨_, [], rfl, (List.append_nil _).symm⟩,
    fun l1 l2 cs s => by
      cases s; simp [has_all_rationales, List.flatMap_append, List.append_assoc],
    fun cs s => ⟨_, [], rfl, (List.append_nil _).symm⟩,
    fun l1 l2 sl => exclAux_append l1 l2 sl,
    fun cs s => ⟨[], _, (List.append_nil _).symm, rfl⟩,
    fun l1 l2 s => by
      cases s; simp [check_associated_count, List.flatMap_append, List.append_assoc],
    fun cs s => ⟨_, [], rfl, (List.append_nil _).symm⟩,
    fun l1 l2 s => by
      cases s; simp [find_non_https_urls, List.flatMap_append, List.append_assoc],
    fun o cs s => ⟨_, [], rfl, (List.append_nil _).symm⟩,
    fun o l1 l2 s => by
      cases s; simp [find_invalid_eTLD_Plus1, List.flatMap_append, List.append_assoc],
    fun f p sl s => ⟨_, [], rfl, (List.append_nil _).symm⟩,
    fun f p l1 l2 s => by
      cases s; simp [check_list_sites, List.flatMap_append, List.append_assoc],
    fun f cs s => ⟨_, [], rfl, (List.append_nil _).symm⟩,
    fun f l1 l2 s => by
      cases s; simp [find_invalid_well_known, List.flatMap_append, List.append_assoc],
    fun f cs s => ⟨_, [], rfl, (List.append_nil _).symm⟩,
    fun f l1 l2 s => by
      cases s; simp [find_invalid_removal, List.flatMap_append, List.append_assoc],
    fun ic cs s => ⟨_, [], rfl, (List.append_nil _).symm⟩,
    fun ic l1 l2 s => by
      cases s; simp [find_invalid_alias_eSLDs, List.flatMap_append, List.append_assoc],
    fun f cs s => ⟨_, [], rfl, (List.append_nil _).symm⟩,
    fun f l1 l2 s => by
      cases s; simp [find_robots_tag, List.flatMap_append, List.append_assoc],
    fun f cs s => ⟨_, [], rfl, (List.append_nil _).symm⟩,
    fun f l1 l2 s => by
      cases s; simp [find_ads_txt, List.flatMap_append, List.append_assoc],
    fun f cs s => ⟨_, [], rfl, (List.append_nil _).symm⟩,
    fun f l1 l2 s => by
      cases s; simp [check_for_service_redirect, List.flatMap_append, List.append_assoc]⟩

/-- C10: only `check_associated_count` ever writes to `warning_texts` — it
leaves `error_list` unchanged and appends exactly one warning per Set whose
associated-site count exceeds `ASSOCIATED_LIMIT` (5) — while every other
check leaves `warning_texts` unchanged, so the warning list is fully
determined by the associated-site counts. -/
theorem claim_C10 :
    (∀ cs (s : CheckState), (check_associated_count cs s).error_list = s.error_list)
  ∧ (∀ cs (s : CheckState), (check_associated_count cs s).warning_texts
      = s.warning_texts
        ++ (cs.filter (fun e => ASSOCIATED_LIMIT < e.2.associated_sites.length)).map
            (fun e => associatedCountMsg e.1))
  ∧ (∀ docs (s : CheckState), (load_sets docs s).2.warning_texts = s.warning_texts)
  ∧ (∀ docs cs (s : CheckState), (has_all_rationales docs cs s).warning_texts = s.warning_texts)
  ∧ (∀ cs (s : CheckState), (check_exclusivity cs s).warning_texts = s.warning_texts)
  ∧ (∀ cs (s : CheckState), (find_non_https_urls cs s).warning_texts = s.warning_texts)
  ∧ (∀ o cs (s : CheckState), (find_invalid_eTLD_Plus1 o cs s).warning_texts = s.warning_texts)
  ∧ (∀ f p sl (s : CheckState), (check_list_sites f p sl s).warning_texts = s.warning_texts)
  ∧ (∀ f cs (s : CheckState), (find_invalid_well_known f cs s).warning_texts = s.warning_texts)
  ∧ (∀ f cs (s : CheckState), (find_invalid_removal f cs s).warning_texts = s.warning_texts)
  ∧ (∀ ic cs (s : CheckState), (find_invalid_alias_eSLDs ic cs s).warning_texts = s.warning_texts)
  ∧ (∀ f cs (s : CheckState), (find_robots_tag f cs s).warning_texts = s.warning_texts)
  ∧ (∀ f cs (s : CheckState), (find_ads_txt f cs s).warning_texts = s.warning_texts)
  ∧ (∀ f cs (s : CheckState), (check_for_service_redirect f cs s).warning_texts = s.warning_texts) := by
  refine ⟨fun cs s => rfl, fun cs s => ?_, fun docs sa => rfl, fun docs cs2 sb => rfl,
    fun cs3 sc => rfl, fun cs4 sd => rfl, fun o cs5 se => rfl, fun fj pr sl sf => rfl,
    fun fw cs6 sg => rfl, fun fv cs7 sh => rfl, fun ic cs8 si => rfl, fun fr cs9 sj => rfl,
    fun fa csa sk => rfl, fun fe csb sm => rfl⟩
  show s.warning_texts ++ _ = _
  rw [flatMap_ite_filter_map]
